import Mathlib

/-!
Shallow embedding of the LazyMCPanel configuration core
(src/lmcp/schemas/config.py, src/lmcp/core/config.py,
src/lmcp/core/orchestrator.py) together with theorems settling the
frozen claims about it.

Python dictionaries are modelled as association lists (`List (String × _)`)
preserving insertion order, which is how CPython dicts behave.  Pydantic
models become Lean structures whose field defaults are the `Field(default=...)`
values of the source.  Machine strings and integers are Lean `String`/`Int`.
-/

set_option autoImplicit false

namespace LMCP

/-! ## Schema (src/lmcp/schemas/config.py)

Each pydantic model keeps its declared fields, order and defaults.
None of the models sets `model_config`, so pydantic's defaults apply:
`extra = 'ignore'` (unknown keys are dropped, both in the constructor and
during validation) and attribute access on an undeclared name raises
`AttributeError`. -/

/-- `ServerConfig`: configuration of one backend server. -/
structure ServerConfig where
  java_version : String := "java21"
deriving Repr, DecidableEq

/-- `NetworkConfig`: the single cluster network. -/
structure NetworkConfig where
  name : String := "MyLMCPNetwork"
deriving Repr, DecidableEq

/-- `ImagesConfig`: container images per Java runtime.  The pydantic model
declares exactly the two fields below; there is no mapping beyond them. -/
structure ImagesConfig where
  java8 : String := "localhost/lmcp:jre8-py312"
  java21 : String := "localhost/lmcp:jre21-py312"
deriving Repr, DecidableEq

/-- `ContainerEnvConfig`: network plus images. -/
structure ContainerEnvConfig where
  network : NetworkConfig := {}
  images : ImagesConfig := {}
deriving Repr, DecidableEq

/-- `VelocityConfig`: the proxy service. -/
structure VelocityConfig where
  service_name : String := "velocity"
  java_version : String := "java21"
  port : Int := 25565
deriving Repr, DecidableEq

/-- Default of the `servers` field of `ClusterConfig`
(`default_factory=lambda: {"lobby": ..., "survival": ...}`). -/
def defaultServers : List (String × ServerConfig) :=
  [("lobby", { java_version := "java21" }), ("survival", { java_version := "java8" })]

/-- `ClusterConfig`: the root configuration model.  Note the field is named
`cluster_name`; there is no `project_name` field. -/
structure ClusterConfig where
  cluster_name : String := "My LMCP Cluster"
  lmcp_dir : String := ".lmcp"
  servers_dir : String := "servers"
  templates_dir : String := "templates"
  container_env : ContainerEnvConfig := {}
  velocity : VelocityConfig := {}
  servers : List (String × ServerConfig) := defaultServers
  active_servers : Option (List String) := none
deriving Repr, DecidableEq

/-- Declared field names of `ClusterConfig`, in declaration order.  Used to
model pydantic's keyword handling: constructor keywords that are not in this
list are ignored (`extra = 'ignore'`), and `getattr` on a name outside this
list raises `AttributeError`. -/
def clusterConfigFields : List String :=
  ["cluster_name", "lmcp_dir", "servers_dir", "templates_dir",
   "container_env", "velocity", "servers", "active_servers"]

/-- Whether `getattr(config, name)` succeeds on a `ClusterConfig` instance:
only for declared fields (pydantic raises `AttributeError` otherwise). -/
def ClusterConfig.hasField (name : String) : Bool :=
  clusterConfigFields.contains name

/-! ## YAML values

The shape of data returned by `ruamel.yaml`'s loader (and fed to
`ClusterConfig(**yaml_data)`), restricted to what the configuration uses. -/

/-- A parsed YAML value. -/
inductive Yaml where
  | str (s : String)
  | int (n : Int)
  | bool (b : Bool)
  | null
  | seq (xs : List Yaml)
  | map (kvs : List (String × Yaml))

/-! ## Pydantic validation

`ClusterConfig(**yaml_data)` validates each declared field from the keyword
map: a missing key takes the declared default, a present key is validated
against the field's type, and unknown keys are ignored.  The source collects
all field errors into one `ValidationError`; we return the first offending
field path, which does not change whether validation succeeds. -/

/-- A pydantic validation failure, identified by the offending field path. -/
inductive ValError where
  | typeError (path : String)
deriving Repr, DecidableEq

/-- Validate a field declared `str`: the YAML value must be a string. -/
def validateStr (path : String) : Yaml → Except ValError String
  | .str s => .ok s
  | _ => .error (.typeError path)

/-- Validate a field declared `int`: the YAML value must be an integer. -/
def validateInt (path : String) : Yaml → Except ValError Int
  | .int n => .ok n
  | _ => .error (.typeError path)

/-- Look up a declared field in the keyword map: absent means the declared
default, present means the value is validated. -/
def validateField {α : Type} (kvs : List (String × Yaml)) (key : String)
    (dflt : α) (f : Yaml → Except ValError α) : Except ValError α :=
  match kvs.lookup key with
  | none => .ok dflt
  | some v => f v

/-- Validate a value against `ServerConfig`. -/
def serverConfigOfYaml (path : String) : Yaml → Except ValError ServerConfig
  | .map kvs => do
      let jv ← validateField kvs "java_version" "java21" (validateStr (path ++ ".java_version"))
      .ok { java_version := jv }
  | _ => .error (.typeError path)

/-- Validate a value against `NetworkConfig`. -/
def networkConfigOfYaml (path : String) : Yaml → Except ValError NetworkConfig
  | .map kvs => do
      let n ← validateField kvs "name" "MyLMCPNetwork" (validateStr (path ++ ".name"))
      .ok { name := n }
  | _ => .error (.typeError path)

/-- Validate a value against `ImagesConfig`. -/
def imagesConfigOfYaml (path : String) : Yaml → Except ValError ImagesConfig
  | .map kvs => do
      let j8 ← validateField kvs "java8" "localhost/lmcp:jre8-py312"
        (validateStr (path ++ ".java8"))
      let j21 ← validateField kvs "java21" "localhost/lmcp:jre21-py312"
        (validateStr (path ++ ".java21"))
      .ok { java8 := j8, java21 := j21 }
  | _ => .error (.typeError path)

/-- Validate a value against `ContainerEnvConfig`. -/
def containerEnvConfigOfYaml (path : String) : Yaml → Except ValError ContainerEnvConfig
  | .map kvs => do
      let nw ← validateField kvs "network" ({} : NetworkConfig)
        (networkConfigOfYaml (path ++ ".network"))
      let im ← validateField kvs "images" ({} : ImagesConfig)
        (imagesConfigOfYaml (path ++ ".images"))
      .ok { network := nw, images := im }
  | _ => .error (.typeError path)

/-- Validate a value against `VelocityConfig`. -/
def velocityConfigOfYaml (path : String) : Yaml → Except ValError VelocityConfig
  | .map kvs => do
      let sn ← validateField kvs "service_name" "velocity"
        (validateStr (path ++ ".service_name"))
      let jv ← validateField kvs "java_version" "java21"
        (validateStr (path ++ ".java_version"))
      let p ← validateField kvs "port" (25565 : Int) (validateInt (path ++ ".port"))
      .ok { service_name := sn, java_version := jv, port := p }
  | _ => .error (.typeError path)

/-- Validate the entries of the `servers` mapping one by one, preserving
their order. -/
def serversEntriesOfYaml (path : String) :
    List (String × Yaml) → Except ValError (List (String × ServerConfig))
  | [] => .ok []
  | (k, v) :: rest => do
      let sc ← serverConfigOfYaml (path ++ "." ++ k) v
      let tail ← serversEntriesOfYaml path rest
      .ok ((k, sc) :: tail)

/-- Validate a value against `Dict[str, ServerConfig]`. -/
def serversOfYaml (path : String) : Yaml → Except ValError (List (String × ServerConfig))
  | .map kvs => serversEntriesOfYaml path kvs
  | _ => .error (.typeError path)

/-- Validate a list of YAML values as `List[str]`. -/
def strListOfYaml (path : String) : List Yaml → Except ValError (List String)
  | [] => .ok []
  | y :: ys => do
      let s ← validateStr path y
      let rest ← strListOfYaml path ys
      .ok (s :: rest)

/-- Validate a value against `Optional[List[str]]`. -/
def optStrListOfYaml (path : String) : Yaml → Except ValError (Option (List String))
  | .null => .ok none
  | .seq xs => do
      let l ← strListOfYaml path xs
      .ok (some l)
  | _ => .error (.typeError path)

/-- Pydantic construction `ClusterConfig(**kvs)`: every declared field is
resolved from the keyword map (default when absent), keys outside
`clusterConfigFields` are ignored. -/
def clusterConfigOfYamlMap (kvs : List (String × Yaml)) : Except ValError ClusterConfig := do
  let cn ← validateField kvs "cluster_name" "My LMCP Cluster" (validateStr "cluster_name")
  let ld ← validateField kvs "lmcp_dir" ".lmcp" (validateStr "lmcp_dir")
  let sd ← validateField kvs "servers_dir" "servers" (validateStr "servers_dir")
  let td ← validateField kvs "templates_dir" "templates" (validateStr "templates_dir")
  let ce ← validateField kvs "container_env" ({} : ContainerEnvConfig)
    (containerEnvConfigOfYaml "container_env")
  let ve ← validateField kvs "velocity" ({} : VelocityConfig)
    (velocityConfigOfYaml "velocity")
  let sv ← validateField kvs "servers" defaultServers (serversOfYaml "servers")
  let av ← validateField kvs "active_servers" none (optStrListOfYaml "active_servers")
  .ok { cluster_name := cn, lmcp_dir := ld, servers_dir := sd, templates_dir := td,
        container_env := ce, velocity := ve, servers := sv, active_servers := av }

/-! ## Serialization (`model_dump` plus `ruamel` round trip)

`save_config` and `_generate_yaml_with_comments` dump `config.model_dump()`
with `ruamel.yaml`.  Dumping plain strings, ints, dicts, lists and `None`
and loading the text back reproduces the same values, so a written file is
modelled directly by the dumped YAML value (comments attached by
`_generate_yaml_with_comments` do not change the parsed data). -/

/-- The keyword map produced by `config.model_dump()`, in field declaration
order. -/
def ClusterConfig.modelDumpFields (c : ClusterConfig) : List (String × Yaml) :=
  [("cluster_name", .str c.cluster_name),
   ("lmcp_dir", .str c.lmcp_dir),
   ("servers_dir", .str c.servers_dir),
   ("templates_dir", .str c.templates_dir),
   ("container_env", .map
     [("network", .map [("name", .str c.container_env.network.name)]),
      ("images", .map
        [("java8", .str c.container_env.images.java8),
         ("java21", .str c.container_env.images.java21)])]),
   ("velocity", .map
     [("service_name", .str c.velocity.service_name),
      ("java_version", .str c.velocity.java_version),
      ("port", .int c.velocity.port)]),
   ("servers", .map (c.servers.map fun p => (p.1, .map [("java_version", .str p.2.java_version)]))),
   ("active_servers", match c.active_servers with
     | none => .null
     | some xs => .seq (xs.map .str))]

/-! ## Config store (src/lmcp/core/config.py) -/

/-- Outcome of `self.yaml.load` on one file's text: a YAML parse error, or a
document (`none` for an empty file, where the loader returns `None`). -/
inductive ParseResult where
  | parseError (msg : String)
  | doc (v : Option Yaml)

/-- The file system as seen by the config store: maps a path to the parse
outcome of its content; a path that is not bound does not exist. -/
def FileSystem : Type := List (String × ParseResult)

/-- Bind a path to freshly written content (`open(path, 'w')` truncates). -/
def FileSystem.write (fs : FileSystem) (path : String) (r : ParseResult) : FileSystem :=
  (path, r) :: fs.filter (fun p => p.1 ≠ path)

/-- Errors raised by the config store operations. -/
inductive LoadError where
  /-- `FileNotFoundError`: the path does not exist. -/
  | fileNotFound (path : String)
  /-- `ruamel.yaml.YAMLError` propagated from the parser. -/
  | yamlError (msg : String)
  /-- `ValueError`: the file parsed to `None` (empty file). -/
  | emptyFile (path : String)
  /-- `TypeError`: `ClusterConfig(**yaml_data)` on a non-mapping document. -/
  | notAMapping (path : String)
  /-- `ValidationError` from pydantic. -/
  | validationError (e : ValError)
  /-- `AttributeError`: access to an attribute that is not a declared field. -/
  | attributeError (attr : String)
deriving Repr, DecidableEq

/-- `ConfigManager.load_config`: existence check, YAML parse, empty check,
pydantic validation — and then the debug log
`logger.debug(f"Project name: {config.project_name}")`, whose f-string
evaluates `config.project_name`.  `project_name` is not a declared field of
`ClusterConfig` (the field is `cluster_name`), so the access raises
`AttributeError` after a successful validation; the exception is not caught
(the surrounding `try` only catches `ValidationError`). -/
def load_config (fs : FileSystem) (config_path : String) : Except LoadError ClusterConfig :=
  match fs.lookup config_path with
  | none => .error (.fileNotFound config_path)
  | some (.parseError m) => .error (.yamlError m)
  | some (.doc none) => .error (.emptyFile config_path)
  | some (.doc (some y)) =>
      match y with
      | .map kvs =>
          match clusterConfigOfYamlMap kvs with
          | .error e => .error (.validationError e)
          | .ok config =>
              if ClusterConfig.hasField "project_name" then .ok config
              else .error (.attributeError "project_name")
      | _ => .error (.notAMapping config_path)

/-- `ConfigManager.save_config`: dumps `config.model_dump()` to the path,
then evaluates `config.project_name` in a debug log, which raises
`AttributeError`; the `except Exception` clause re-raises it after the file
has already been written.  Returns the updated file system and the outcome. -/
def save_config (fs : FileSystem) (config : ClusterConfig) (config_path : String) :
    FileSystem × Except LoadError String :=
  let fs' := fs.write config_path (.doc (some (.map config.modelDumpFields)))
  (fs', if ClusterConfig.hasField "project_name" then .ok config_path
        else .error (.attributeError "project_name"))

/-- The `ClusterConfig(project_name=project_name, ...)` call inside
`generate_default_config`, encoded as pydantic keyword validation: model
instances passed as keywords (`ContainerEnvConfig(...)`, `VelocityConfig()`)
are written as their field maps.  The keyword `project_name` is not a
declared field, so pydantic (default `extra='ignore'`) silently drops it;
`servers` is not passed and takes its declared default. -/
def generate_default_config_object (project_name : String) : Except ValError ClusterConfig :=
  clusterConfigOfYamlMap
    [("project_name", .str project_name),
     ("lmcp_dir", .str ".lmcp"),
     ("servers_dir", .str "servers"),
     ("templates_dir", .str "templates"),
     ("container_env", .map
       [("network", .map [("name", .str (project_name ++ "_net"))]),
        ("images", .map [])]),
     ("velocity", .map []),
     ("active_servers", .seq [])]

/-- `ConfigManager.generate_default_config`: builds the default object and
writes its `model_dump()` as YAML with schema-derived comments (the comments
do not affect the parsed data, so the written document is the dump). -/
def generate_default_config (fs : FileSystem) (project_name config_path : String) :
    FileSystem × Except LoadError String :=
  match generate_default_config_object project_name with
  | .error e => (fs, .error (.validationError e))
  | .ok c =>
      (fs.write config_path (.doc (some (.map c.modelDumpFields))), .ok config_path)

/-! ## Locator (`ConfigManager.find_config_file`)

Directories are modelled as component lists written leaf first, so the
parent of `c :: rest` is `rest` and the file system root is `[]` (the root
is its own parent, which is the loop's exit condition).  `hasConfig d`
tells whether `d` contains the canonical `lmcp.yaml`; on success the source
returns that file's path, modelled here by the directory that contains it. -/

/-- The `while current_path != current_path.parent` loop of
`find_config_file`, with its `search_count` bound: after examining a
directory the path moves to the parent and the count increases; once the
count exceeds 50 the loop breaks without examining further. -/
def findConfigLoop (hasConfig : List String → Bool) :
    List String → Nat → Option (List String)
  | [], _ => none
  | c :: rest, count =>
      if hasConfig (c :: rest) then some (c :: rest)
      else if count + 1 > 50 then none
      else findConfigLoop hasConfig rest (count + 1)

/-- `ConfigManager.find_config_file`, starting the loop at the resolved
start path with `search_count = 0`. -/
def find_config_file (hasConfig : List String → Bool) (start : List String) :
    Option (List String) :=
  findConfigLoop hasConfig start 0

/-! ## Comment formatting (`_format_description_for_comment`, `_wrap_long_line`)

`line.split()` and the accumulation `f"{current_line} {word}"` are modelled
at the word level: a line under construction is its list of words, and its
rendered length counts one separating space between adjacent words. -/

/-- Split a character list at every character satisfying `p`, keeping empty
pieces (the semantics of Python `str.split(sep)` for a one-character
separator, on the character level). -/
def splitOnPred (p : Char → Bool) : List Char → List (List Char)
  | [] => [[]]
  | x :: xs =>
      if p x then [] :: splitOnPred p xs
      else match splitOnPred p xs with
           | [] => [[x]]
           | g :: gs => (x :: g) :: gs

/-- Python `line.split()`: split on whitespace runs, dropping empty pieces. -/
def pyWords (s : String) : List String :=
  ((splitOnPred (fun c => c.isWhitespace) s.data).filter (fun g => ¬ g.isEmpty)).map
    fun g => String.mk g

/-- Python `description.split('\n')`. -/
def pySplitNl (s : String) : List String :=
  (splitOnPred (fun c => c = '\n') s.data).map fun g => String.mk g

/-- Rendered length of `' '.join`-ing a group of words, matching
`len(f"{current_line} {word}")` accumulation. -/
def joinLen : List String → Nat
  | [] => 0
  | [w] => w.length
  | w :: ws => w.length + 1 + joinLen ws

/-- Render a group of words as the line the source builds
(`current_line + " " + word` repeatedly). -/
def joinWords : List String → String
  | [] => ""
  | [w] => w
  | w :: ws => w ++ " " ++ joinWords ws

/-- The word loop of `_wrap_long_line`: `cur` is the `current_line` under
construction.  A word extends the current line when the result stays within
80 characters; otherwise the current line (if non-empty) is flushed and the
word starts a new line. -/
def wrapWordsAux : List String → List String → List (List String)
  | [], cur => if cur.isEmpty then [] else [cur]
  | w :: ws, cur =>
      if joinLen (cur ++ [w]) ≤ 80 then wrapWordsAux ws (cur ++ [w])
      else if cur.isEmpty then wrapWordsAux ws [w]
      else cur :: wrapWordsAux ws [w]

/-- `_wrap_long_line`: greedy word wrap of one line at 80 columns. -/
def wrap_long_line (line : String) : List String :=
  (wrapWordsAux (pyWords line) []).map joinWords

/-- The comment lines emitted by `_format_description_for_comment`: a short
single-line description is returned unchanged, otherwise the description is
split at explicit line breaks and each long resulting line is word-wrapped. -/
def formatDescriptionLines (description : String) : List String :=
  if ¬ description.data.contains '\n' ∧ description.length ≤ 80 then [description]
  else (pySplitNl description).flatMap fun line =>
    if line.length ≤ 80 then [line] else wrap_long_line line

/-- `_format_description_for_comment`: the emitted comment text, the lines
joined with explicit newlines. -/
def format_description_for_comment (description : String) : String :=
  joinWith (formatDescriptionLines description)
where
  /-- `'\n'.join(lines)`. -/
  joinWith : List String → String
    | [] => ""
    | [l] => l
    | l :: ls => l ++ "\n" ++ joinWith ls

/-! ## Cluster-definition generator (src/lmcp/core/orchestrator.py)

`Orchestrator._generate_compose_dict` is a pure function of the validated
`ClusterConfig` (its only other effects are log messages; the warnings it
logs are modelled separately by `unknownActiveServers`).  Python dict
insertion `services[name] = {...}` replaces the value in place when the key
exists and appends otherwise. -/

/-- A value `getattr` can produce on the images model: a declared field's
configured image reference (a string), or an inherited attribute of the
pydantic `BaseModel` class (a bound method or similar non-string object,
identified here by its name). -/
inductive ImageValue where
  | str (s : String)
  | boundMethod (name : String)
deriving Repr, DecidableEq

/-- A concrete under-approximation of the inherited attribute names of
`pydantic.BaseModel` (v2): the documented `model_*` API plus the deprecated
v1-style helpers.  The real class namespace is larger (dunder and private
names among others), which is why the theorems about the generator
quantify over the environment instead of fixing this list; this one
instantiates witnesses and the C5 counterexample. -/
def baseModelAttrs : String → Bool := fun name =>
  ["model_dump", "model_dump_json", "model_copy", "model_validate",
   "model_validate_json", "model_json_schema", "dict", "json", "copy",
   "schema"].contains name

/-- `getattr(cfg.container_env.images, key)`: a declared field of
`ImagesConfig` resolves first (pydantic v2 stores fields in the instance
dictionary) to its configured string; any other name is looked up in the
inherited class namespace — `battr` says which names exist there, a
parameter of the embedding because that namespace belongs to the pydantic
library, not to this repository — and resolves to a non-string bound
method.  Only when both fail does `AttributeError` rise (caught by the
source and turned into a `ValueError`). -/
def ImagesConfig.getattr (battr : String → Bool) (i : ImagesConfig) (key : String) :
    Option ImageValue :=
  if key = "java8" then some (.str i.java8)
  else if key = "java21" then some (.str i.java21)
  else if battr key then some (.boundMethod key)
  else none

/-- The entity named by an unresolved-image error message: Velocity, or a
backend server by name. -/
inductive GenEntity where
  | velocity
  | server (name : String)
deriving Repr, DecidableEq

/-- Failures of `_generate_compose_dict`. -/
inductive GenError where
  /-- `ValueError`: image key for the named entity not found in the images
  config. -/
  | unresolvedImage (who : GenEntity) (key : String)
  /-- `KeyError` from `cfg.servers[server_name]` (never actually reached:
  every processed name is a key of `servers`). -/
  | keyError (name : String)
deriving Repr, DecidableEq

/-- One service entry of the generated compose document.  `ports` is `none`
when the `ports` key is absent (backend servers publish no port).  `image`
is whatever `getattr` resolved — the configured string, or a bound method
when the runtime identifier collided with an inherited model attribute. -/
structure ServiceDef where
  image : ImageValue
  container_name : String
  ports : Option (List String)
  volumes : List String
  networks : List String
  restart : String
  stdin_open : Bool
  tty : Bool
deriving Repr, DecidableEq

/-- The single generated network definition. -/
structure NetworkDef where
  driver : String
  name : String
deriving Repr, DecidableEq

/-- The generated compose document: format version, service map, network
map, in that key order. -/
structure ComposeDoc where
  version : String
  services : List (String × ServiceDef)
  networks : List (String × NetworkDef)
deriving Repr, DecidableEq

/-- Step 1 of `_generate_compose_dict`: the active server names.  With
`active_servers` absent every key of `servers` is active; otherwise the
entries of `active_servers` that are keys of `servers`, in list order. -/
def activeServerNames (cfg : ClusterConfig) : List String :=
  match cfg.active_servers with
  | none => cfg.servers.map Prod.fst
  | some xs => xs.filter (fun n => (cfg.servers.lookup n).isSome)

/-- The names `_generate_compose_dict` warns about and drops: entries of
`active_servers` that are not keys of `servers` (each produces the log
warning `Server '<name>' from 'active_servers' is not defined ...`). -/
def unknownActiveServers (cfg : ClusterConfig) : List String :=
  match cfg.active_servers with
  | none => []
  | some xs => xs.filter (fun n => (cfg.servers.lookup n).isNone)

/-- Python dict assignment `m[k] = v`: replace in place when the key is
present, append otherwise. -/
def dictInsert {α : Type} (m : List (String × α)) (k : String) (v : α) :
    List (String × α) :=
  if m.any (fun p => p.1 = k) then
    m.map (fun p => if p.1 = k then (k, v) else p)
  else m ++ [(k, v)]

/-- `cfg.cluster_name.lower().replace(' ', '-')`, the container-name slug:
lower-case every character, then replace spaces with hyphens. -/
def slugName (s : String) : String :=
  String.mk ((s.data.map Char.toLower).map (fun c => if c = ' ' then '-' else c))

/-- The container name `<slug(cluster_name)>-<service>`. -/
def containerName (cfg : ClusterConfig) (service : String) : String :=
  slugName cfg.cluster_name ++ "-" ++ service

/-- Step 2: the Velocity service entry, given its resolved image. -/
def velocityService (cfg : ClusterConfig) (image : ImageValue) : ServiceDef :=
  { image := image
    container_name := containerName cfg cfg.velocity.service_name
    ports := some [toString cfg.velocity.port ++ ":25565"]
    volumes := ["../" ++ cfg.servers_dir ++ "/" ++ cfg.velocity.service_name ++ ":/app"]
    networks := [cfg.container_env.network.name]
    restart := "unless-stopped"
    stdin_open := true
    tty := true }

/-- Step 3: one backend server service entry, given its resolved image.
No `ports` key is emitted. -/
def serverService (cfg : ClusterConfig) (name : String) (image : ImageValue) : ServiceDef :=
  { image := image
    container_name := containerName cfg name
    ports := none
    volumes := ["../" ++ cfg.servers_dir ++ "/" ++ name ++ ":/app"]
    networks := [cfg.container_env.network.name]
    restart := "unless-stopped"
    stdin_open := true
    tty := true }

/-- The server loop of step 3: for each active name, look the server up,
resolve its image and insert its service entry. -/
def buildServerServices (battr : String → Bool) (cfg : ClusterConfig) :
    List String → List (String × ServiceDef) → Except GenError (List (String × ServiceDef))
  | [], services => .ok services
  | n :: rest, services =>
      match cfg.servers.lookup n with
      | none => .error (.keyError n)
      | some sc =>
          match cfg.container_env.images.getattr battr sc.java_version with
          | none => .error (.unresolvedImage (.server n) sc.java_version)
          | some img =>
              buildServerServices battr cfg rest (dictInsert services n (serverService cfg n img))

/-- `Orchestrator._generate_compose_dict`: Velocity first (aborting when its
image key resolves to no attribute), then the active servers in order, then
the single bridge network, assembled under the fixed top-level keys.
`battr` is the inherited attribute namespace consulted by `getattr`. -/
def generate_compose_dict (battr : String → Bool) (cfg : ClusterConfig) :
    Except GenError ComposeDoc :=
  let network_name := cfg.container_env.network.name
  match cfg.container_env.images.getattr battr cfg.velocity.java_version with
  | none => .error (.unresolvedImage .velocity cfg.velocity.java_version)
  | some vimg =>
      let services0 := dictInsert ([] : List (String × ServiceDef))
        cfg.velocity.service_name (velocityService cfg vimg)
      match buildServerServices battr cfg (activeServerNames cfg) services0 with
      | .error e => .error e
      | .ok services =>
          .ok { version := "3.8"
                services := services
                networks := [(network_name, { driver := "bridge", name := network_name })] }

/-! ### Claim-side characterizations

The following definitions restate, for comparison in the theorems below,
what the specification asserts about the generator; they are written from
the claims, not from the source. -/

/-- The configured runtime-image key of an entity the generator may name. -/
def configuredImageKey (cfg : ClusterConfig) : GenEntity → Option String
  | .velocity => some cfg.velocity.java_version
  | .server n => (cfg.servers.lookup n).map ServerConfig.java_version

/-- Whether every runtime identifier referenced by Velocity or an active
server resolves to an attribute of the images config — as a declared image
field, or as an inherited attribute of the model class. -/
def allImagesResolvable (battr : String → Bool) (cfg : ClusterConfig) : Bool :=
  (cfg.container_env.images.getattr battr cfg.velocity.java_version).isSome &&
  (activeServerNames cfg).all fun n =>
    match cfg.servers.lookup n with
    | some sc => (cfg.container_env.images.getattr battr sc.java_version).isSome
    | none => false

/-- Key order produced by one Python dict assignment: unchanged when the
key is already present, appended otherwise. -/
def pyKeysInsert (ks : List String) (k : String) : List String :=
  if k ∈ ks then ks else ks ++ [k]

/-! ## Declared field-name lists of the nested models

Used to state that pydantic ignores keys outside the declared fields at
every nesting level. -/

/-- Declared fields of `VelocityConfig`. -/
def velocityConfigFields : List String := ["service_name", "java_version", "port"]

/-- Declared fields of `NetworkConfig`. -/
def networkConfigFields : List String := ["name"]

/-- Declared fields of `ImagesConfig`. -/
def imagesConfigFields : List String := ["java8", "java21"]

/-- Declared fields of `ContainerEnvConfig`. -/
def containerEnvConfigFields : List String := ["network", "images"]

/-- Declared fields of `ServerConfig`. -/
def serverConfigFields : List String := ["java_version"]

/-! ## Concrete instances used by the claim theorems -/

/-- A file system holding one existing, well-formed configuration file. -/
def demoFs : FileSystem :=
  [("lmcp.yaml", .doc (some (.map [("cluster_name", .str "castle")])))]

/-- A single 81-character word. -/
def longWord : String := String.mk (List.replicate 81 'a')

/-- A configuration whose `active_servers` list is present but empty. -/
def proxyOnlyCfg : ClusterConfig := { active_servers := some [] }

/-- The compose document generated from `proxyOnlyCfg`. -/
def proxyOnlyDoc : ComposeDoc :=
  { version := "3.8"
    services := [("velocity", velocityService proxyOnlyCfg (.str "localhost/lmcp:jre21-py312"))]
    networks := [("MyLMCPNetwork", { driver := "bridge", name := "MyLMCPNetwork" })] }

/-- A configuration whose proxy references a runtime identifier that is
neither a field of `ImagesConfig` nor an inherited model attribute. -/
def badProxyCfg : ClusterConfig := { velocity := { java_version := "java9" } }

/-- A configuration whose proxy runtime identifier is `model_dump` — not a
key of the images mapping, but an inherited method of every pydantic
model. -/
def methodKeyCfg : ClusterConfig :=
  { velocity := { java_version := "model_dump" }, active_servers := some [] }

/-- A configuration whose `active_servers` contains the name `ghost`, which
is not a key of `servers`. -/
def ghostActiveCfg : ClusterConfig :=
  { servers := [("lobby", {})], active_servers := some ["lobby", "ghost"] }

/-- A configuration whose `active_servers` names exactly the proxy's service
name, which is not a key of its (empty) `servers` map. -/
def proxyNameActiveCfg : ClusterConfig :=
  { servers := [], active_servers := some ["velocity"] }

/-! ## Association-list lemmas -/

/-- Filtering an association list by a key set does not change lookups of
keys inside the set. -/
theorem lookup_filter_of_contains {α : Type} (keys : List String) (k : String)
    (h : keys.contains k = true) (kvs : List (String × α)) :
    (kvs.filter fun p => keys.contains p.1).lookup k = kvs.lookup k := by
  have hmem : k ∈ keys := by simpa using h
  induction kvs with
  | nil => rfl
  | cons p rest ih =>
      obtain ⟨k', v⟩ := p
      by_cases hc : k' ∈ keys
      · rw [List.filter_cons_of_pos (by simpa using hc)]
        simp only [List.lookup]
        cases hbeq : k == k' with
        | true => rfl
        | false => exact ih
      · have hk : (k == k') = false := by
          refine beq_eq_false_iff_ne.mpr fun e => hc ?_
          exact e ▸ hmem
        rw [List.filter_cons_of_neg (by simpa using hc)]
        simp only [List.lookup, hk, ih]

/-- A key occurring among the keys of an association list has a successful
lookup. -/
theorem lookup_isSome_of_mem_keys {α : Type} (m : List (String × α)) (k : String)
    (h : k ∈ m.map Prod.fst) : (m.lookup k).isSome = true := by
  induction m with
  | nil => simp at h
  | cons p rest ih =>
      rw [List.map_cons, List.mem_cons] at h
      simp only [List.lookup]
      cases hbeq : k == p.1 with
      | true => rfl
      | false =>
          apply ih
          rcases h with h | h
          · exact absurd h (by simpa using hbeq)
          · exact h

/-- A key absent from the keys of an association list has no lookup. -/
theorem lookup_eq_none_of_not_mem_keys {α : Type} (m : List (String × α)) (k : String)
    (h : k ∉ m.map Prod.fst) : m.lookup k = none := by
  induction m with
  | nil => rfl
  | cons p rest ih =>
      rw [List.map_cons, List.mem_cons] at h
      push_neg at h
      simp only [List.lookup, beq_eq_false_iff_ne.mpr h.1, ih h.2]

/-- The keys after a Python dict assignment. -/
theorem dictInsert_keys {α : Type} (m : List (String × α)) (k : String) (v : α) :
    (dictInsert m k v).map Prod.fst = pyKeysInsert (m.map Prod.fst) k := by
  unfold dictInsert pyKeysInsert
  by_cases h : m.any (fun p => p.1 = k) = true
  · have hmem : k ∈ m.map Prod.fst := by
      rw [List.any_eq_true] at h
      obtain ⟨p, hp, hpk⟩ := h
      rw [decide_eq_true_eq] at hpk
      exact List.mem_map.mpr ⟨p, hp, hpk⟩
    rw [if_pos h, if_pos hmem, List.map_map]
    apply List.map_congr_left
    intro p hp
    by_cases hpk : p.1 = k <;> simp [hpk]
  · have hmem : k ∉ m.map Prod.fst := by
      intro hm
      obtain ⟨p, hp, hpk⟩ := List.mem_map.mp hm
      exact h (List.any_eq_true.mpr ⟨p, hp, decide_eq_true hpk⟩)
    rw [if_neg h, if_neg hmem, List.map_append]
    rfl

/-- Membership after one key insertion. -/
theorem mem_pyKeysInsert (ks : List String) (k a : String) :
    a ∈ pyKeysInsert ks k ↔ a ∈ ks ∨ a = k := by
  unfold pyKeysInsert
  by_cases h : k ∈ ks
  · simp only [if_pos h]
    constructor
    · exact Or.inl
    · rintro (ha | rfl) <;> [exact ha; exact h]
  · simp [if_neg h]

/-- Key insertions only ever append: the original keys stay a prefix. -/
theorem foldl_pyKeysInsert_append (names : List String) (ks : List String) :
    ∃ t, names.foldl pyKeysInsert ks = ks ++ t := by
  induction names generalizing ks with
  | nil => exact ⟨[], (List.append_nil ks).symm⟩
  | cons n rest ih =>
      rw [List.foldl_cons]
      by_cases h : n ∈ ks
      · rw [show pyKeysInsert ks n = ks from by simp [pyKeysInsert, h]]
        exact ih ks
      · rw [show pyKeysInsert ks n = ks ++ [n] from by simp [pyKeysInsert, h]]
        obtain ⟨t, ht⟩ := ih (ks ++ [n])
        exact ⟨[n] ++ t, by rw [ht, List.append_assoc]⟩

/-- Membership after a sequence of key insertions. -/
theorem mem_foldl_pyKeysInsert (names : List String) (ks : List String) (a : String) :
    a ∈ names.foldl pyKeysInsert ks ↔ a ∈ ks ∨ a ∈ names := by
  induction names generalizing ks with
  | nil => simp
  | cons n rest ih =>
      rw [List.foldl_cons, ih, mem_pyKeysInsert, List.mem_cons]
      tauto

/-! ## Generator lemmas -/

/-- Every active server name is a key of `servers` (by construction of the
active set). -/
theorem activeServerNames_lookup_isSome (cfg : ClusterConfig) :
    ∀ n ∈ activeServerNames cfg, (cfg.servers.lookup n).isSome = true := by
  intro n hn
  unfold activeServerNames at hn
  cases h : cfg.active_servers with
  | none =>
      rw [h] at hn
      exact lookup_isSome_of_mem_keys _ _ hn
  | some xs =>
      rw [h] at hn
      have := List.of_mem_filter hn
      simpa using this

/-- The service keys produced by the server loop: each processed name is
insert-appended to the accumulated keys. -/
theorem buildServerServices_ok_keys (battr : String → Bool) (cfg : ClusterConfig)
    (names : List String) :
    ∀ (acc services : List (String × ServiceDef)),
      buildServerServices battr cfg names acc = .ok services →
      services.map Prod.fst = names.foldl pyKeysInsert (acc.map Prod.fst) := by
  induction names with
  | nil =>
      intro acc services h
      cases h
      rfl
  | cons n rest ih =>
      intro acc services h
      unfold buildServerServices at h
      cases hl : cfg.servers.lookup n with
      | none => simp [hl] at h
      | some sc =>
          simp only [hl] at h
          cases hg : cfg.container_env.images.getattr battr sc.java_version with
          | none => simp [hg] at h
          | some img =>
              simp only [hg] at h
              have := ih _ _ h
              rw [this, dictInsert_keys, List.foldl_cons]

/-- The server loop succeeds exactly when every processed name resolves to a
server whose image key resolves. -/
theorem buildServerServices_isOk (battr : String → Bool) (cfg : ClusterConfig)
    (names : List String) :
    ∀ acc : List (String × ServiceDef),
      (buildServerServices battr cfg names acc).isOk =
        names.all (fun n =>
          match cfg.servers.lookup n with
          | some sc => (cfg.container_env.images.getattr battr sc.java_version).isSome
          | none => false) := by
  induction names with
  | nil => intro acc; rfl
  | cons n rest ih =>
      intro acc
      unfold buildServerServices
      rw [List.all_cons]
      cases hl : cfg.servers.lookup n with
      | none => simp only [hl]; rfl
      | some sc =>
          simp only [hl]
          cases hg : cfg.container_env.images.getattr battr sc.java_version with
          | none => simp only [hg]; rfl
          | some img => simp only [hg, Option.isSome_some, Bool.true_and, ih]

/-- Any error of the server loop (when every processed name is a key of
`servers`) is an unresolved-image error naming one of the processed
servers and its configured image key. -/
theorem buildServerServices_error_shape (battr : String → Bool) (cfg : ClusterConfig)
    (names : List String) :
    ∀ (acc : List (String × ServiceDef)) (e : GenError),
      (∀ n ∈ names, (cfg.servers.lookup n).isSome = true) →
      buildServerServices battr cfg names acc = .error e →
      ∃ n sc, n ∈ names ∧ cfg.servers.lookup n = some sc
        ∧ cfg.container_env.images.getattr battr sc.java_version = none
        ∧ e = .unresolvedImage (.server n) sc.java_version := by
  induction names with
  | nil => intro acc e _ h; cases h
  | cons n rest ih =>
      intro acc e hnames h
      unfold buildServerServices at h
      cases hl : cfg.servers.lookup n with
      | none =>
          have := hnames n (List.mem_cons_self n rest)
          rw [hl] at this
          cases this
      | some sc =>
          simp only [hl] at h
          cases hg : cfg.container_env.images.getattr battr sc.java_version with
          | none =>
              simp only [hg] at h
              cases h
              exact ⟨n, sc, List.mem_cons_self n rest, hl, hg, rfl⟩
          | some img =>
              simp only [hg] at h
              obtain ⟨m, sc', hm, hl', hg', he⟩ :=
                ih _ e (fun x hx => hnames x (List.mem_cons_of_mem n hx)) h
              exact ⟨m, sc', List.mem_cons_of_mem n hm, hl', hg', he⟩

/-- Generation succeeds exactly when every referenced image resolves. -/
theorem generate_isOk (battr : String → Bool) (cfg : ClusterConfig) :
    (generate_compose_dict battr cfg).isOk = allImagesResolvable battr cfg := by
  unfold generate_compose_dict allImagesResolvable
  cases hv : cfg.container_env.images.getattr battr cfg.velocity.java_version with
  | none => rfl
  | some vimg =>
      simp only [Option.isSome_some, Bool.true_and]
      cases hb : buildServerServices battr cfg (activeServerNames cfg)
          (dictInsert [] cfg.velocity.service_name (velocityService cfg vimg)) with
      | error e =>
          have := buildServerServices_isOk battr cfg (activeServerNames cfg)
            (dictInsert [] cfg.velocity.service_name (velocityService cfg vimg))
          rw [hb] at this
          exact this
      | ok services =>
          have := buildServerServices_isOk battr cfg (activeServerNames cfg)
            (dictInsert [] cfg.velocity.service_name (velocityService cfg vimg))
          rw [hb] at this
          exact this

/-- Shape of a successfully generated document: the fixed version marker,
the service keys as dict inserts of the proxy name followed by the active
server names, and the single bridge network. -/
theorem generate_ok_shape (battr : String → Bool) (cfg : ClusterConfig) (doc : ComposeDoc)
    (hdoc : generate_compose_dict battr cfg = .ok doc) :
    doc.version = "3.8"
    ∧ doc.services.map Prod.fst
        = (cfg.velocity.service_name :: activeServerNames cfg).foldl pyKeysInsert []
    ∧ doc.networks = [(cfg.container_env.network.name,
        { driver := "bridge", name := cfg.container_env.network.name })] := by
  unfold generate_compose_dict at hdoc
  cases hv : cfg.container_env.images.getattr battr cfg.velocity.java_version with
  | none => simp [hv] at hdoc
  | some vimg =>
      simp only [hv] at hdoc
      cases hb : buildServerServices battr cfg (activeServerNames cfg)
          (dictInsert [] cfg.velocity.service_name (velocityService cfg vimg)) with
      | error e => rw [hb] at hdoc; cases hdoc
      | ok services =>
          rw [hb] at hdoc
          cases hdoc
          have hkeys := buildServerServices_ok_keys battr cfg (activeServerNames cfg) _ _ hb
          refine ⟨rfl, ?_, rfl⟩
          show services.map Prod.fst = _
          rw [hkeys, List.foldl_cons]
          rfl

/-! ## Serialization round-trip lemmas -/

/-- Dumped string lists validate back to themselves. -/
theorem strList_roundtrip (path : String) (xs : List String) :
    strListOfYaml path (xs.map .str) = .ok xs := by
  induction xs with
  | nil => rfl
  | cons x xs ih => simp only [strListOfYaml, validateStr, List.map, ih]; rfl

/-- Dumped server maps validate back to themselves. -/
theorem serversEntries_roundtrip (path : String) (l : List (String × ServerConfig)) :
    serversEntriesOfYaml path
      (l.map fun p => (p.1, .map [("java_version", .str p.2.java_version)])) = .ok l := by
  induction l with
  | nil => rfl
  | cons p rest ih =>
      simp only [serversEntriesOfYaml, serverConfigOfYaml, validateField, List.lookup,
        List.map, ih]
      rfl

/-- The data layer round-trips: validating the dump of any `ClusterConfig`
reproduces it exactly.  (The round trip of the source nevertheless fails,
because `load_config` raises `AttributeError` after validation; see C3.) -/
theorem clusterConfig_dump_validate (c : ClusterConfig) :
    clusterConfigOfYamlMap c.modelDumpFields = .ok c := by
  obtain ⟨cn, ld, sd, td, ⟨⟨nn⟩, ⟨i8, i21⟩⟩, ⟨vs, vj, vp⟩, sv, av⟩ := c
  have hs := serversEntries_roundtrip "servers" sv
  cases av with
  | none =>
      simp only [clusterConfigOfYamlMap, ClusterConfig.modelDumpFields, validateField,
        List.lookup, serversOfYaml, optStrListOfYaml, containerEnvConfigOfYaml,
        networkConfigOfYaml, imagesConfigOfYaml, velocityConfigOfYaml, validateStr,
        validateInt, String.reduceBEq, hs]
      rfl
  | some xs =>
      simp only [clusterConfigOfYamlMap, ClusterConfig.modelDumpFields, validateField,
        List.lookup, serversOfYaml, optStrListOfYaml, strList_roundtrip,
        containerEnvConfigOfYaml, networkConfigOfYaml, imagesConfigOfYaml,
        velocityConfigOfYaml, validateStr, validateInt, String.reduceBEq, hs]
      rfl

/-! ## Locator lemma -/

/-- Characterization of the search loop: starting at count `c ≤ 50`, it
returns the first directory containing the file among the first `51 - c`
non-root ancestors (a path and its successive tails), and `none` otherwise. -/
theorem findConfigLoop_eq (hasConfig : List String → Bool) :
    ∀ (p : List String) (count : Nat), count ≤ 50 →
      findConfigLoop hasConfig p count
        = ((p.tails.filter (fun q => !q.isEmpty)).take (51 - count)).find? hasConfig := by
  intro p
  induction p with
  | nil => intro count h; simp [findConfigLoop]
  | cons c rest ih =>
      intro count hcount
      have h51 : 51 - count = (50 - count) + 1 := by omega
      unfold findConfigLoop
      rw [show (c :: rest).tails = (c :: rest) :: rest.tails from rfl,
        List.filter_cons_of_pos (by rfl), h51, List.take_succ_cons]
      cases hcfg : hasConfig (c :: rest) with
      | true => simp [List.find?, hcfg]
      | false =>
          simp only [List.find?, hcfg, if_false]
          by_cases h50 : count + 1 > 50
          · have hc : count = 50 := by omega
            subst hc
            simp
          · have hc1 : count + 1 ≤ 50 := by omega
            rw [if_neg (by omega : ¬ count + 1 > 50), ih (count + 1) hc1,
              show 51 - (count + 1) = 50 - count from by omega]
            simp

/-! ## Word-wrap lemmas -/

/-- The rendered length of a word group is its word lengths plus separating
spaces. -/
theorem joinWords_length (g : List String) : (joinWords g).length = joinLen g := by
  induction g with
  | nil => rfl
  | cons w ws ih =>
      cases ws with
      | nil => rfl
      | cons w2 ws2 =>
          show (w ++ " " ++ joinWords (w2 :: ws2)).length = w.length + 1 + joinLen (w2 :: ws2)
          rw [String.length_append, String.length_append, ih]
          rfl

/-- The word loop of the wrapper loses, duplicates and splits no word: the
emitted groups flatten back to the pending line followed by the remaining
words. -/
theorem wrapWordsAux_flatten (ws : List String) :
    ∀ cur : List String, (wrapWordsAux ws cur).flatten = cur ++ ws := by
  induction ws with
  | nil =>
      intro cur
      unfold wrapWordsAux
      by_cases h : cur.isEmpty
      · rw [if_pos h]
        simp [List.isEmpty_iff.mp h]
      · rw [if_neg h]
        simp
  | cons w ws ih =>
      intro cur
      unfold wrapWordsAux
      by_cases h1 : joinLen (cur ++ [w]) ≤ 80
      · rw [if_pos h1, ih]
        simp
      · rw [if_neg h1]
        by_cases h2 : cur.isEmpty
        · rw [if_pos h2, ih]
          simp [List.isEmpty_iff.mp h2]
        · rw [if_neg h2]
          simp [ih]

/-- Every group the word loop emits renders within 80 characters or is a
single word drawn from the word pool `W`. -/
theorem wrapWordsAux_groups (W : List String) :
    ∀ (ws cur : List String), (∀ w ∈ ws, w ∈ W) →
      (joinLen cur ≤ 80 ∨ ∃ w, cur = [w] ∧ w ∈ W) →
      ∀ g ∈ wrapWordsAux ws cur, joinLen g ≤ 80 ∨ ∃ w, g = [w] ∧ w ∈ W := by
  intro ws
  induction ws with
  | nil =>
      intro cur hws hcur g hg
      unfold wrapWordsAux at hg
      by_cases h : cur.isEmpty
      · rw [if_pos h] at hg
        simp at hg
      · rw [if_neg h] at hg
        rw [List.mem_singleton] at hg
        subst hg
        exact hcur
  | cons w ws ih =>
      intro cur hws hcur g hg
      have hwW : w ∈ W := hws w (List.mem_cons_self _ _)
      have hrest : ∀ x ∈ ws, x ∈ W := fun x hx => hws x (List.mem_cons_of_mem _ hx)
      unfold wrapWordsAux at hg
      by_cases h1 : joinLen (cur ++ [w]) ≤ 80
      · rw [if_pos h1] at hg
        exact ih _ hrest (Or.inl h1) g hg
      · rw [if_neg h1] at hg
        by_cases h2 : cur.isEmpty
        · rw [if_pos h2] at hg
          exact ih _ hrest (Or.inr ⟨w, rfl, hwW⟩) g hg
        · rw [if_neg h2] at hg
          rw [List.mem_cons] at hg
          rcases hg with rfl | hg
          · exact hcur
          · exact ih _ hrest (Or.inr ⟨w, rfl, hwW⟩) g hg

/-! ## Claim theorems -/

/-- C1: the claim states that `Load` succeeds on every existing file whose
content is a valid YAML mapping satisfying the schema, and fails with
`NotFound` on a missing path.  The `NotFound` half holds, but on a valid
file `load_config` never succeeds: after validating, it evaluates
`config.project_name` in a debug log, and `project_name` is not a declared
field of `ClusterConfig` (the field is `cluster_name`), so an
`AttributeError` escapes.  This theorem evaluates the code at a failing
input: an existing file with the valid document `cluster_name: castle`. -/
theorem C1_load_config_attribute_error :
    load_config demoFs "lmcp.yaml" = .error (.attributeError "project_name")
    ∧ load_config demoFs "missing.yaml" = .error (.fileNotFound "missing.yaml") :=
  ⟨rfl, rfl⟩

/-- C2: the claim states that `GenerateDefault(n, path)` persists a
configuration whose `cluster_name` equals `n`, in particular `"castle"` for
project name `"castle"`.  It does not: the source passes the keyword
`project_name=project_name` to the `ClusterConfig` constructor, but the
declared field is `cluster_name`, so pydantic (default `extra='ignore'`)
silently drops the keyword and `cluster_name` keeps its declared default
`"My LMCP Cluster"`.  Only the network name is derived from the project
name, and `active_servers` is set to `[]` rather than its declared
default. -/
theorem C2_generate_default_ignores_project_name :
    generate_default_config_object "castle" = .ok
      { cluster_name := "My LMCP Cluster",
        container_env := { network := { name := "castle_net" } },
        active_servers := some [] }
    ∧ ("My LMCP Cluster" : String) ≠ "castle" :=
  ⟨rfl, by decide⟩

/-- C3: the claim states that loading the file produced by
`GenerateDefault` reproduces the in-memory configuration, and that
`Load(Save(c, p)) = c`.  Neither round trip completes on the code:
`load_config` raises `AttributeError` (`config.project_name`) after
successfully validating the generated file, and `save_config` raises the
same `AttributeError` in its logging after writing the file.  The third
conjunct shows the claim is right about the data: validating the dump of
any `ClusterConfig` reproduces it exactly, so only the stray attribute
access breaks the round trip. -/
theorem C3_roundtrip_broken_by_attribute_error :
    load_config (generate_default_config [] "castle" "lmcp.yaml").1 "lmcp.yaml"
        = .error (.attributeError "project_name")
    ∧ (save_config [] {} "lmcp.yaml").2 = .error (.attributeError "project_name")
    ∧ ∀ c : ClusterConfig, clusterConfigOfYamlMap c.modelDumpFields = .ok c :=
  ⟨rfl, rfl, clusterConfig_dump_validate⟩

/-- C4 counterexample: the claim asserts that a name in `active_servers`
that is not a key of `servers` is absent from the emitted service set.
When that name equals the proxy's service name, the emitted service set
does contain it (as the proxy's own service entry): with
`active_servers = ["velocity"]` and no servers, generation succeeds and the
document has a service under the key `velocity`. -/
theorem C4_counterexample_proxy_name_emitted :
    proxyNameActiveCfg.active_servers = some ["velocity"]
    ∧ proxyNameActiveCfg.servers.lookup "velocity" = none
    ∧ ∃ doc, generate_compose_dict baseModelAttrs proxyNameActiveCfg = .ok doc
        ∧ (doc.services.lookup "velocity").isSome = true :=
  ⟨rfl, rfl, ⟨_, rfl, rfl⟩⟩

/-- C4 (amended): when `active_servers` is absent the active set is every
key of `servers`; otherwise each listed name that is not a key of
`servers` is warned about and dropped, generation still succeeds whenever
all referenced images resolve, and the dropped name is absent from the
emitted service set unless it coincides with the proxy's service name. -/
theorem C4_dropped_name_excluded (battr : String → Bool) (cfg : ClusterConfig) :
    (cfg.active_servers = none → activeServerNames cfg = cfg.servers.map Prod.fst)
    ∧ ∀ ns n, cfg.active_servers = some ns → n ∈ ns → cfg.servers.lookup n = none →
        n ∈ unknownActiveServers cfg
        ∧ (allImagesResolvable battr cfg = true →
            ∃ doc, generate_compose_dict battr cfg = .ok doc)
        ∧ ∀ doc, generate_compose_dict battr cfg = .ok doc →
            n ≠ cfg.velocity.service_name → doc.services.lookup n = none := by
  constructor
  · intro h
    unfold activeServerNames
    rw [h]
  · intro ns n hns hmem habs
    refine ⟨?_, ?_, ?_⟩
    · unfold unknownActiveServers
      rw [hns]
      exact List.mem_filter.mpr ⟨hmem, by simp [habs]⟩
    · intro hres
      have := generate_isOk battr cfg
      rw [hres] at this
      cases hgen : generate_compose_dict battr cfg with
      | error e => rw [hgen] at this; cases this
      | ok doc => exact ⟨doc, rfl⟩
    · intro doc hdoc hne
      have hkeys := (generate_ok_shape battr cfg doc hdoc).2.1
      apply lookup_eq_none_of_not_mem_keys
      rw [hkeys, mem_foldl_pyKeysInsert]
      rintro (h | h)
      · simp at h
      · rw [List.mem_cons] at h
        rcases h with h | h
        · exact hne h
        · unfold activeServerNames at h
          rw [hns] at h
          have := List.of_mem_filter h
          rw [habs] at this
          simp at this

/-- C4 witness: in `ghostActiveCfg` the name `ghost` is listed but not
defined; it is warned about, generation succeeds, and no service named
`ghost` is emitted. -/
theorem C4_dropped_name_excluded_witness :
    "ghost" ∈ unknownActiveServers ghostActiveCfg
    ∧ (∃ doc, generate_compose_dict baseModelAttrs ghostActiveCfg = .ok doc)
    ∧ ∀ doc, generate_compose_dict baseModelAttrs ghostActiveCfg = .ok doc →
        doc.services.lookup "ghost" = none := by
  obtain ⟨h1, h2⟩ := C4_dropped_name_excluded baseModelAttrs ghostActiveCfg
  obtain ⟨ha, hb, hc⟩ := h2 ["lobby", "ghost"] "ghost" rfl (by decide) rfl
  exact ⟨ha, hb (by decide), fun doc hdoc => hc doc hdoc (by decide)⟩

/-- C5 counterexample: the claim asserts that generation fails with
`UnresolvedImage` whenever a referenced runtime identifier is not a key of
the images mapping.  Python `getattr` resolves inherited attributes of the
pydantic model class before raising: with the proxy runtime set to
`model_dump` — not a key of the mapping, but a method every `BaseModel`
has — generation raises nothing and returns a full document whose proxy
image is that bound method instead of an image string. -/
theorem C5_counterexample_inherited_attribute :
    imagesConfigFields.contains "model_dump" = false
    ∧ ∃ doc, generate_compose_dict baseModelAttrs methodKeyCfg = .ok doc
        ∧ doc.services.lookup "velocity"
            = some (velocityService methodKeyCfg (.boundMethod "model_dump")) :=
  ⟨rfl, ⟨_, rfl, rfl⟩⟩

/-- C5 (amended): every generation failure is an unresolved-image error
naming the proxy or one of the active servers, carrying exactly that
entity's configured runtime identifier, which resolves to no attribute of
the images object — neither a declared image field nor an inherited model
attribute; generation succeeds exactly when every referenced identifier so
resolves, and in particular never raises this error when all referenced
identifiers are keys of the images mapping.  No document accompanies an
error, so no partial output is produced.  An identifier absent from the
mapping that collides with an inherited attribute escapes the check (see
the counterexample). -/
theorem C5_unresolved_image (battr : String → Bool) (cfg : ClusterConfig) :
    (∀ e, generate_compose_dict battr cfg = .error e →
      ∃ who key, e = .unresolvedImage who key
        ∧ configuredImageKey cfg who = some key
        ∧ cfg.container_env.images.getattr battr key = none
        ∧ (who = .velocity ∨ ∃ n, who = .server n ∧ n ∈ activeServerNames cfg))
    ∧ (generate_compose_dict battr cfg).isOk = allImagesResolvable battr cfg
    ∧ ∀ key, imagesConfigFields.contains key = true →
        (cfg.container_env.images.getattr battr key).isSome = true := by
  refine ⟨?_, generate_isOk battr cfg, ?_⟩
  · intro e he
    unfold generate_compose_dict at he
    cases hv : cfg.container_env.images.getattr battr cfg.velocity.java_version with
    | none =>
        simp only [hv] at he
        cases he
        exact ⟨.velocity, cfg.velocity.java_version, rfl, rfl, hv, Or.inl rfl⟩
    | some vimg =>
        simp only [hv] at he
        cases hb : buildServerServices battr cfg (activeServerNames cfg)
            (dictInsert [] cfg.velocity.service_name (velocityService cfg vimg)) with
        | error e2 =>
            rw [hb] at he
            injection he with he2
            subst he2
            obtain ⟨n, sc, hn, hl, hg, hshape⟩ :=
              buildServerServices_error_shape battr cfg (activeServerNames cfg) _ _
                (activeServerNames_lookup_isSome cfg) hb
            refine ⟨.server n, sc.java_version, hshape, ?_, hg, Or.inr ⟨n, rfl, hn⟩⟩
            simp [configuredImageKey, hl]
        | ok services => rw [hb] at he; cases he
  · intro key hk
    have hmem : key = "java8" ∨ key = "java21" := by
      simpa [imagesConfigFields] using hk
    rcases hmem with rfl | rfl <;> rfl

/-- C5 witness: `badProxyCfg` sets the proxy runtime to `java9`, which is
neither an image field nor an inherited attribute; generation fails with
the error naming the proxy and that key. -/
theorem C5_unresolved_image_witness :
    ∃ who key, (GenError.unresolvedImage .velocity "java9") = .unresolvedImage who key
      ∧ configuredImageKey badProxyCfg who = some key
      ∧ badProxyCfg.container_env.images.getattr baseModelAttrs key = none
      ∧ (who = .velocity ∨ ∃ n, who = .server n ∧ n ∈ activeServerNames badProxyCfg) :=
  (C5_unresolved_image baseModelAttrs badProxyCfg).1
    (.unresolvedImage .velocity "java9") rfl

/-- C6 counterexample: the claim states that a mapping containing a key not
declared by the schema fails validation with a `SchemaViolation`; in fact
pydantic's default `extra='ignore'` applies (no model sets
`model_config`), so the document `cluster_name: x, foo: bar` validates
successfully, the unknown key being silently dropped. -/
theorem C6_counterexample_unknown_key_accepted :
    clusterConfigOfYamlMap [("cluster_name", .str "x"), ("foo", .str "bar")]
      = .ok { cluster_name := "x" } :=
  rfl

/-- C6 (amended): keys not declared by the schema, at the top level or at
any nesting level, are silently ignored rather than rejected: at every
model of the schema, validation of a mapping coincides with validation of
the mapping restricted to the declared field names, so unknown keys never
cause a failure and `Load` does not reject a document for containing an
unrecognized key. -/
theorem C6_unknown_keys_ignored (kvs : List (String × Yaml)) :
    clusterConfigOfYamlMap (kvs.filter fun p => clusterConfigFields.contains p.1)
        = clusterConfigOfYamlMap kvs
    ∧ velocityConfigOfYaml "velocity" (.map (kvs.filter fun p => velocityConfigFields.contains p.1))
        = velocityConfigOfYaml "velocity" (.map kvs)
    ∧ networkConfigOfYaml "network" (.map (kvs.filter fun p => networkConfigFields.contains p.1))
        = networkConfigOfYaml "network" (.map kvs)
    ∧ imagesConfigOfYaml "images" (.map (kvs.filter fun p => imagesConfigFields.contains p.1))
        = imagesConfigOfYaml "images" (.map kvs)
    ∧ containerEnvConfigOfYaml "container_env"
          (.map (kvs.filter fun p => containerEnvConfigFields.contains p.1))
        = containerEnvConfigOfYaml "container_env" (.map kvs)
    ∧ serverConfigOfYaml "server" (.map (kvs.filter fun p => serverConfigFields.contains p.1))
        = serverConfigOfYaml "server" (.map kvs) := by
  refine ⟨?_, ?_, ?_, ?_, ?_, ?_⟩
  · unfold clusterConfigOfYamlMap validateField
    rw [lookup_filter_of_contains clusterConfigFields "cluster_name" (by decide) kvs,
      lookup_filter_of_contains clusterConfigFields "lmcp_dir" (by decide) kvs,
      lookup_filter_of_contains clusterConfigFields "servers_dir" (by decide) kvs,
      lookup_filter_of_contains clusterConfigFields "templates_dir" (by decide) kvs,
      lookup_filter_of_contains clusterConfigFields "container_env" (by decide) kvs,
      lookup_filter_of_contains clusterConfigFields "velocity" (by decide) kvs,
      lookup_filter_of_contains clusterConfigFields "servers" (by decide) kvs,
      lookup_filter_of_contains clusterConfigFields "active_servers" (by decide) kvs]
  · unfold velocityConfigOfYaml validateField
    dsimp only
    rw [lookup_filter_of_contains velocityConfigFields "service_name" (by decide) kvs,
      lookup_filter_of_contains velocityConfigFields "java_version" (by decide) kvs,
      lookup_filter_of_contains velocityConfigFields "port" (by decide) kvs]
  · unfold networkConfigOfYaml validateField
    dsimp only
    rw [lookup_filter_of_contains networkConfigFields "name" (by decide) kvs]
  · unfold imagesConfigOfYaml validateField
    dsimp only
    rw [lookup_filter_of_contains imagesConfigFields "java8" (by decide) kvs,
      lookup_filter_of_contains imagesConfigFields "java21" (by decide) kvs]
  · unfold containerEnvConfigOfYaml validateField
    dsimp only
    rw [lookup_filter_of_contains containerEnvConfigFields "network" (by decide) kvs,
      lookup_filter_of_contains containerEnvConfigFields "images" (by decide) kvs]
  · unfold serverConfigOfYaml validateField
    dsimp only
    rw [lookup_filter_of_contains serverConfigFields "java_version" (by decide) kvs]

/-- C7: generation is deterministic — the generator is a pure function of
the configuration, so equal configurations yield equal documents — and the
successful output always has the fixed top-level shape: version `3.8`, the
service keys beginning with the proxy's service name followed by the active
servers in their determined order (under Python dict insertion, which keeps
the first position of a repeated key), and the single bridge network. -/
theorem C7_deterministic_ordered (battr : String → Bool) (cfg cfg2 : ClusterConfig)
    (heq : cfg = cfg2) :
    generate_compose_dict battr cfg = generate_compose_dict battr cfg2
    ∧ ∀ doc, generate_compose_dict battr cfg = .ok doc →
        doc.version = "3.8"
        ∧ doc.services.map Prod.fst
            = (cfg.velocity.service_name :: activeServerNames cfg).foldl pyKeysInsert []
        ∧ (doc.services.map Prod.fst).head? = some cfg.velocity.service_name
        ∧ doc.networks = [(cfg.container_env.network.name,
            { driver := "bridge", name := cfg.container_env.network.name })] := by
  subst heq
  refine ⟨rfl, ?_⟩
  intro doc hdoc
  obtain ⟨h1, h2, h3⟩ := generate_ok_shape battr cfg doc hdoc
  refine ⟨h1, h2, ?_, h3⟩
  rw [h2, List.foldl_cons]
  obtain ⟨t, ht⟩ := foldl_pyKeysInsert_append (activeServerNames cfg)
    (pyKeysInsert [] cfg.velocity.service_name)
  rw [ht]
  rfl

/-- C7 witness: two generations from `proxyOnlyCfg` agree, and its concrete
output document has the asserted shape. -/
theorem C7_deterministic_ordered_witness :
    generate_compose_dict baseModelAttrs proxyOnlyCfg
        = generate_compose_dict baseModelAttrs proxyOnlyCfg
    ∧ proxyOnlyDoc.version = "3.8"
    ∧ proxyOnlyDoc.services.map Prod.fst
        = (proxyOnlyCfg.velocity.service_name :: activeServerNames proxyOnlyCfg).foldl
            pyKeysInsert []
    ∧ (proxyOnlyDoc.services.map Prod.fst).head? = some proxyOnlyCfg.velocity.service_name
    ∧ proxyOnlyDoc.networks = [(proxyOnlyCfg.container_env.network.name,
        { driver := "bridge", name := proxyOnlyCfg.container_env.network.name })] := by
  obtain ⟨h1, h2⟩ := C7_deterministic_ordered baseModelAttrs proxyOnlyCfg proxyOnlyCfg rfl
  obtain ⟨ha, hb, hc, hd⟩ := h2 proxyOnlyDoc rfl
  exact ⟨h1, ha, hb, hc, hd⟩

/-- C8 counterexample: the claim states that `Find` examines `startPath`
itself and each successive parent, returning the first match and absent
only when no ancestor within the 50-step bound contains the file.  The
loop's condition compares a directory with its parent before examining it,
so the filesystem root is never examined: with the canonical file present
exactly at the root and the search starting one level below it, `Find`
returns absent although an ancestor one step up contains the file. -/
theorem C8_counterexample_root_skipped :
    find_config_file (fun p => p.isEmpty) ["a"] = none
    ∧ (fun p : List String => p.isEmpty) [] = true :=
  ⟨rfl, rfl⟩

/-- C8 (amended): `Find` examines `startPath` itself and then each
successive parent strictly above the filesystem root (a directory equal to
its own parent is never examined), within at most 50 upward steps — i.e.
among the first 51 non-root ancestors — and returns the first (nearest)
match, or absent when no examined directory contains the file. -/
theorem C8_find_nearest_within_bound (hasConfig : List String → Bool)
    (start : List String) :
    find_config_file hasConfig start
      = ((start.tails.filter (fun q => !q.isEmpty)).take 51).find? hasConfig :=
  findConfigLoop_eq hasConfig start 0 (by omega)

/-- C9 counterexample: the claim states that every emitted comment line is
at most 80 characters long.  A single 81-character word is "wrapped" to
itself — the greedy wrapper never splits a word, so a word longer than the
limit is emitted as a line longer than 80 characters. -/
theorem C9_counterexample_long_word :
    formatDescriptionLines longWord = [longWord] ∧ 80 < longWord.length :=
  ⟨rfl, by decide⟩

/-- C9 (amended): the formatter splits the description at explicit line
breaks and word-wraps each long resulting line independently; every
emitted line is at most 80 characters long or is a single original word
(so longer than 80 only when that word itself is), and wrapping never
splits, loses or reorders words: the word groups flatten back to the
line's words. -/
theorem C9_wrap_lines_bounded (d : String) :
    (∀ l ∈ formatDescriptionLines d,
        l.length ≤ 80 ∨ ∃ src ∈ pySplitNl d, l ∈ pyWords src)
    ∧ ∀ line : String, (wrapWordsAux (pyWords line) []).flatten = pyWords line := by
  refine ⟨?_, fun line => wrapWordsAux_flatten _ _⟩
  intro l hl
  unfold formatDescriptionLines at hl
  by_cases hshort : ¬ d.data.contains '\n' ∧ d.length ≤ 80
  · rw [if_pos hshort] at hl
    rw [List.mem_singleton] at hl
    subst hl
    exact Or.inl hshort.2
  · rw [if_neg hshort] at hl
    rw [List.mem_flatMap] at hl
    obtain ⟨src, hsrc, hl⟩ := hl
    by_cases hlen : src.length ≤ 80
    · rw [if_pos hlen] at hl
      rw [List.mem_singleton] at hl
      subst hl
      exact Or.inl hlen
    · rw [if_neg hlen] at hl
      unfold wrap_long_line at hl
      rw [List.mem_map] at hl
      obtain ⟨g, hg, rfl⟩ := hl
      have hgrp := wrapWordsAux_groups (pyWords src) (pyWords src) []
        (fun w hw => hw) (Or.inl (by norm_num [joinLen])) g hg
      rcases hgrp with h | ⟨w, rfl, hw⟩
      · exact Or.inl (by rw [joinWords_length]; exact h)
      · exact Or.inr ⟨src, hsrc, hw⟩

/-- C9 witness: the 81-character word is an emitted line of its own
formatting; applying the theorem to it discharges the membership
hypothesis and yields the disjunction. -/
theorem C9_wrap_lines_bounded_witness :
    longWord.length ≤ 80 ∨ ∃ src ∈ pySplitNl longWord, longWord ∈ pyWords src :=
  (C9_wrap_lines_bounded longWord).1 longWord (by decide)

/-- C10: a configuration whose `active_servers` is present but empty
generates exactly one service — the proxy — and the single network; and
`generate_default_config` always constructs its configuration with
`active_servers = []`, so a freshly defaulted cluster starts only the
proxy. -/
theorem C10_empty_active_servers (battr : String → Bool) (cfg : ClusterConfig)
    (img : ImageValue)
    (hempty : cfg.active_servers = some [])
    (himg : cfg.container_env.images.getattr battr cfg.velocity.java_version = some img) :
    generate_compose_dict battr cfg = .ok
      { version := "3.8"
        services := [(cfg.velocity.service_name, velocityService cfg img)]
        networks := [(cfg.container_env.network.name,
          { driver := "bridge", name := cfg.container_env.network.name })] }
    ∧ ∀ (name : String) (c : ClusterConfig),
        generate_default_config_object name = .ok c → c.active_servers = some [] := by
  constructor
  · unfold generate_compose_dict
    simp only [himg]
    have hact : activeServerNames cfg = [] := by
      unfold activeServerNames
      rw [hempty]
      rfl
    rw [hact]
    rfl
  · intro name c hc
    have hobj : generate_default_config_object name = .ok
        { cluster_name := "My LMCP Cluster",
          container_env := { network := { name := name ++ "_net" } },
          active_servers := some [] } := rfl
    rw [hobj] at hc
    injection hc with hc2
    rw [← hc2]

/-- C10 witness: `proxyOnlyCfg` generates the proxy-only document, and the
default configuration object for project `castle` has `active_servers`
equal to the empty list. -/
theorem C10_empty_active_servers_witness :
    generate_compose_dict baseModelAttrs proxyOnlyCfg = .ok
      { version := "3.8"
        services := [(proxyOnlyCfg.velocity.service_name,
          velocityService proxyOnlyCfg (.str "localhost/lmcp:jre21-py312"))]
        networks := [(proxyOnlyCfg.container_env.network.name,
          { driver := "bridge", name := proxyOnlyCfg.container_env.network.name })] }
    ∧ ({ cluster_name := "My LMCP Cluster",
         container_env := { network := { name := "castle_net" } },
         active_servers := some [] } : ClusterConfig).active_servers = some [] := by
  obtain ⟨h1, h2⟩ :=
    C10_empty_active_servers baseModelAttrs proxyOnlyCfg
      (.str "localhost/lmcp:jre21-py312") rfl rfl
  exact ⟨h1, h2 "castle" _ rfl⟩

end LMCP
